import Mathlib

/-!
Shallow embedding of the webmlive DirectShow sink filters
(`src/encoder/win/audio_sink_filter.cc` and
`src/http_client/win/video_sink_filter.cc`).

The pin/filter methods are modelled as pure functions over explicit state:
pointer-valued inputs that the code tests against NULL become `Option`s,
COM `HRESULT` codes become an inductive restricted to the values these two
files produce or test, and the out-of-repository helpers (the
`AudioMediaType` parser, the sample-buffer / video-frame initializers and
`media_time_to_milliseconds` from `dshow_util.h`) are modelled from the
spec, as noted on each definition.
-/

namespace Webmlive

/-- The HRESULT values produced or tested by the two sink-filter sources. -/
inductive HResult where
  | S_OK
  | VFW_S_NO_MORE_ITEMS
  | VFW_S_NO_STOP_TIME
  | VFW_E_TYPE_NOT_ACCEPTED
  | VFW_E_NOT_STOPPED
  | VFW_E_WRONG_STATE
  | E_INVALIDARG
  | E_POINTER
  | E_FAIL
  | E_OUTOFMEMORY
  deriving DecidableEq

/-- The `FAILED(hr)` macro: true exactly for the error (negative) codes
among the modelled values; `S_OK` and the `VFW_S_*` codes are successes. -/
def HResult.failed : HResult → Bool
  | .S_OK => false
  | .VFW_S_NO_MORE_ITEMS => false
  | .VFW_S_NO_STOP_TIME => false
  | _ => true

/-- The GUID values compared by the sink filters, plus an `other` family
standing for every GUID different from all of the named ones. -/
inductive Guid where
  | MEDIATYPE_Audio
  | MEDIATYPE_Video
  | MEDIASUBTYPE_IEEE_FLOAT
  | MEDIASUBTYPE_PCM
  | MEDIASUBTYPE_I420
  | FORMAT_WaveFormatEx
  | FORMAT_VideoInfo
  | FORMAT_VideoInfo2
  | other (n : Nat)
  deriving DecidableEq

/-- Constant `WAVE_FORMAT_PCM` from mmreg.h. -/
def WAVE_FORMAT_PCM : Nat := 1

/-- Constant `WAVE_FORMAT_IEEE_FLOAT` from mmreg.h. -/
def WAVE_FORMAT_IEEE_FLOAT : Nat := 3

/-- Constant `WAVE_FORMAT_EXTENSIBLE` from mmreg.h. -/
def WAVE_FORMAT_EXTENSIBLE : Nat := 0xFFFE

/-- The audio configuration record held by `AudioSinkPin` (the canonical
audio format descriptor of the spec). -/
structure AudioConfig where
  format_tag : Nat
  channels : Nat
  sample_rate : Nat
  bytes_per_second : Nat
  block_align : Nat
  bits_per_sample : Nat
  valid_bits_per_sample : Nat
  channel_mask : Nat
  deriving DecidableEq

/-- Modelled from the spec: the default-constructed `AudioConfig()` that
`AudioSinkPin::set_config` stores into `actual_config_`; the spec calls it
the empty configuration, all fields at their zero defaults. -/
def AudioConfig.empty : AudioConfig :=
  ⟨0, 0, 0, 0, 0, 0, 0, 0⟩

/-- Modelled from the spec: the fields exposed by a successfully parsed
`AudioMediaType` record (the "valid extended format record" of the spec),
i.e. the accessors `CheckMediaType` reads after `Init` succeeds. -/
structure AudioFormatRec where
  format_tag : Nat
  channels : Nat
  sample_rate : Nat
  bytes_per_second : Nat
  block_align : Nat
  bits_per_sample : Nat
  valid_bits_per_sample : Nat
  channel_mask : Nat
  deriving DecidableEq

/-- A proposed audio media type, as `AudioSinkPin::CheckMediaType` reads it:
the three GUID accessors (each may be null), the temporal-compression flag,
and the result of `AudioMediaType::Init` on the payload (`none` when `Init`
returns a nonzero status; the parser itself lives outside these sources and
is modelled from the spec as an oracle carried by the proposal). -/
structure AudioProposal where
  majortype : Option Guid
  subtype : Option Guid
  formattype : Option Guid
  temporalCompression : Bool
  parsed : Option AudioFormatRec
  deriving DecidableEq

/-- Array `AudioSinkPin::kInputSubTypes`: the two supported audio sub-kinds. -/
def kInputSubTypes : List Guid :=
  [.MEDIASUBTYPE_IEEE_FLOAT, .MEDIASUBTYPE_PCM]

/-- Constant `AudioSinkPin::kNumInputSubTypes`. -/
def kNumInputSubTypes : Int := 2

namespace AudioSinkPin

/-- Method `AudioSinkPin::CheckMediaType`: validates a proposed audio type against
the supported formats and, on success, overwrites `actual_config_` with the
parsed settings. Returns the HRESULT together with the new value of
`actual_config_` (unchanged on every rejecting path; note that a format
type GUID different from `FORMAT_WaveFormatEx` is only logged, never
rejected, and that a non-extensible tag leaves `valid_bits_per_sample` and
`channel_mask` untouched). -/
def CheckMediaType (actual : AudioConfig) (mt : AudioProposal) :
    HResult × AudioConfig :=
  match mt.majortype with
  | none => (.VFW_E_TYPE_NOT_ACCEPTED, actual)
  | some t =>
    if t ≠ Guid.MEDIATYPE_Audio then (.VFW_E_TYPE_NOT_ACCEPTED, actual)
    else if mt.temporalCompression then (.VFW_E_TYPE_NOT_ACCEPTED, actual)
    else
      match mt.subtype, mt.formattype with
      | none, _ => (.E_INVALIDARG, actual)
      | some _, none => (.E_INVALIDARG, actual)
      | some subtype_guid, some _format_guid =>
        -- format_guid ≠ FORMAT_WaveFormatEx is logged but not rejected.
        if subtype_guid ∉ kInputSubTypes then
          (.VFW_E_TYPE_NOT_ACCEPTED, actual)
        else
          match mt.parsed with
          | none => (.E_INVALIDARG, actual)
          | some format =>
            if format.format_tag ≠ WAVE_FORMAT_PCM ∧
               format.format_tag ≠ WAVE_FORMAT_IEEE_FLOAT ∧
               format.format_tag ≠ WAVE_FORMAT_EXTENSIBLE then
              (.VFW_E_TYPE_NOT_ACCEPTED, actual)
            else
              let cfg : AudioConfig :=
                { actual with
                  format_tag := format.format_tag
                  channels := format.channels
                  sample_rate := format.sample_rate
                  bytes_per_second := format.bytes_per_second
                  block_align := format.block_align
                  bits_per_sample := format.bits_per_sample }
              let cfg :=
                if format.format_tag = WAVE_FORMAT_EXTENSIBLE then
                  { cfg with
                    valid_bits_per_sample := format.valid_bits_per_sample
                    channel_mask := format.channel_mask }
                else cfg
              (.S_OK, cfg)

/-- The media type written by a successful `AudioSinkPin::GetMediaType`
call: major type, format type, and the subtype read from
`kInputSubTypes[type_index]` (`none` models the out-of-bounds array read
that happens when `type_index` equals the array length). -/
structure ProposedAudioType where
  majortype : Guid
  formattype : Guid
  subtype : Option Guid
  deriving DecidableEq

/-- Method `AudioSinkPin::GetMediaType`: enumeration of the preferred audio
types. `ptrNull` models a null `ptr_media_type` argument; the second
component is the media type written on the `S_OK` path. -/
def GetMediaType (type_index : Int) (ptrNull : Bool) :
    HResult × Option ProposedAudioType :=
  if type_index < 0 ∨ ptrNull then (.E_INVALIDARG, none)
  else if type_index > kNumInputSubTypes then (.VFW_S_NO_MORE_ITEMS, none)
  else
    (.S_OK, some
      { majortype := .MEDIATYPE_Audio
        formattype := .FORMAT_WaveFormatEx
        subtype := kInputSubTypes.get? type_index.toNat })

/-- The configuration state owned by `AudioSinkPin`. -/
structure State where
  requested_config : AudioConfig
  actual_config : AudioConfig
  deriving DecidableEq

/-- Method `AudioSinkPin::config`: copies `actual_config_` into `*ptr_config`
when the pointer is non-null. Returns the HRESULT, the value written
through the pointer (if any), and the (unchanged) pin state. -/
def config (st : State) (ptrNull : Bool) :
    HResult × Option AudioConfig × State :=
  if ptrNull then (.E_POINTER, none, st)
  else (.S_OK, some st.actual_config, st)

/-- Method `AudioSinkPin::set_config`: stores the new requested configuration and
resets `actual_config_` to a default-constructed `AudioConfig()`. -/
def set_config (st : State) (cfg : AudioConfig) : HResult × State :=
  (.S_OK, { st with requested_config := cfg, actual_config := .empty })

end AudioSinkPin

/-- Enumeration `FILTER_STATE` from the DirectShow headers; `State_Paused` is the
transitioning state of the spec's three-state run-state machine. -/
inductive FilterState where
  | State_Stopped
  | State_Paused
  | State_Running
  deriving DecidableEq

/-- Modelled from the spec: the fixed device-tick → millisecond conversion
`media_time_to_milliseconds` of `encoder/win/dshow_util.h` (not part of
these sources): division of the reference time by a fixed positive
constant, truncating toward zero as C++ signed division does. -/
def media_time_to_milliseconds (media_time : Int) : Int :=
  Int.tdiv media_time 10000

/-- An `IMediaSample` as read by `AudioSinkFilter::OnSamplesReceived`:
the result of `GetPointer` with the nullness of the returned buffer
pointer, the value of `GetActualDataLength`, and the result of `GetTime`
with the two reference times it reports. -/
structure MediaSample where
  getPointerHr : HResult
  bufferPtrNull : Bool
  actualDataLength : Int
  getTimeHr : HResult
  startTime : Int
  endTime : Int
  deriving DecidableEq

/-- The audio sample buffer produced by a successful ingest: the snapshot
of `actual_config_`, the converted timestamp and duration, and the payload
length handed to `sample_buffer_.Init`. -/
structure AudioBufferRec where
  config : AudioConfig
  timestamp : Int
  duration : Int
  length : Int
  deriving DecidableEq

/-- Outcome of `AudioSinkFilter::OnSamplesReceived`, one constructor per
exit path of the function: the empty-payload early return (carrying the
HRESULT it computes), the failed `GetTime` return, the failed
`sample_buffer_.Init` return, and the delivered path that invoked the
samples callback (recording the status the callback returned). -/
inductive AudioIngestResult where
  | emptyPayload (hr : HResult)
  | timeQueryFailed (hr : HResult)
  | bufferInitFailed
  | delivered (buf : AudioBufferRec) (callbackStatus : Int)
  deriving DecidableEq

/-- The HRESULT that `AudioSinkFilter::OnSamplesReceived` returns on each
outcome; note the delivered path returns `S_OK` whatever the callback
status was. -/
def AudioIngestResult.toHr : AudioIngestResult → HResult
  | .emptyPayload hr => hr
  | .timeQueryFailed hr => hr
  | .bufferInitFailed => .E_FAIL
  | .delivered _ _ => .S_OK

/-- Whether the registered samples callback was invoked on this outcome. -/
def AudioIngestResult.callbackInvoked : AudioIngestResult → Bool
  | .delivered _ _ => true
  | _ => false

namespace AudioSinkFilter

/-- Method `AudioSinkFilter::OnSamplesReceived`: per-sample audio ingest.
`initStatus` is the status returned by `sample_buffer_.Init` (modelled
from the spec: the copy/allocation of the sample buffer, outside these
sources, which fails with a nonzero status), and `callbackStatus` the
status the registered callback returns when invoked. -/
def OnSamplesReceived (cfg : AudioConfig) (s : MediaSample)
    (initStatus : Int) (callbackStatus : Int) : AudioIngestResult :=
  if s.getPointerHr.failed ∨ s.bufferPtrNull ∨ s.actualDataLength ≤ 0 then
    .emptyPayload (if s.getPointerHr = .S_OK then .E_FAIL else s.getPointerHr)
  else if s.getTimeHr.failed then
    .timeQueryFailed s.getTimeHr
  else
    let timestamp := media_time_to_milliseconds s.startTime
    let duration :=
      if s.getTimeHr ≠ .VFW_S_NO_STOP_TIME then
        media_time_to_milliseconds s.endTime - timestamp
      else 0
    if initStatus ≠ 0 then .bufferInitFailed
    else .delivered ⟨cfg, timestamp, duration, s.actualDataLength⟩
      callbackStatus

/-- Method `AudioSinkFilter::set_config`: rejects with `VFW_E_NOT_STOPPED` unless
the filter run state is `State_Stopped`, otherwise forwards to
`AudioSinkPin::set_config`. Returns the HRESULT and the pin state. -/
def set_config (m_State : FilterState) (st : AudioSinkPin.State)
    (cfg : AudioConfig) : HResult × AudioSinkPin.State :=
  if m_State ≠ .State_Stopped then (.VFW_E_NOT_STOPPED, st)
  else AudioSinkPin.set_config st cfg

end AudioSinkFilter

/-- Method `AudioSinkPin::Receive`: runs `CBaseInputPin::Receive` (an external
base-class call whose result is the `baseHr` input), propagates its
failures, and otherwise runs `OnSamplesReceived` — whose failure is only
logged: the function then returns `S_OK` regardless. The second component
records the ingest outcome when ingest ran. -/
def AudioSinkPin.Receive (baseHr : HResult) (cfg : AudioConfig)
    (s : MediaSample) (initStatus : Int) (callbackStatus : Int) :
    HResult × Option AudioIngestResult :=
  if baseHr.failed then (baseHr, none)
  else
    (.S_OK, some (AudioSinkFilter.OnSamplesReceived cfg s initStatus
      callbackStatus))

/-- Value of `MAKEFOURCC('I','4','2','0')`. -/
def kI420FourCc : Nat := 0x30323449

/-- The video configuration held by `VideoSinkPin` (the spec's video
format descriptor): frame width and height. `CheckMediaType` stores the
height as `abs(biHeight)`, so accepted heights are magnitudes. -/
structure VideoConfig where
  width : Int
  height : Int
  deriving DecidableEq

/-- Modelled from the spec: the default-constructed
`WebmEncoderConfig::VideoCaptureConfig()` (declared outside these sources)
that `VideoSinkPin::set_config` stores into `actual_config_`; the spec
describes the result as the Actual Configuration cleared to empty. -/
def VideoCaptureConfigDefault : VideoConfig := ⟨0, 0⟩

/-- The fields of the `BITMAPINFOHEADER` embedded in a video format block
that `VideoSinkPin::CheckMediaType` reads. -/
structure BitmapInfoHeader where
  biWidth : Int
  biHeight : Int
  biCompression : Nat
  deriving DecidableEq

/-- A proposed video media type, as `VideoSinkPin::CheckMediaType` reads
it: the three GUID accessors (each may be null) and the format block
returned by `Format()` (`none` models a null format pointer; both the
`VIDEOINFOHEADER` and `VIDEOINFOHEADER2` branches read only the embedded
`bmiHeader`, so one record serves both). -/
structure VideoProposal where
  majortype : Option Guid
  subtype : Option Guid
  formattype : Option Guid
  formatBlock : Option BitmapInfoHeader
  deriving DecidableEq

namespace VideoSinkPin

/-- Method `VideoSinkPin::CheckMediaType`: validates a proposed video type.
Inside the `FORMAT_VideoInfo` and `FORMAT_VideoInfo2` branches it requires
the `MEDIASUBTYPE_I420` subtype and the `I420` four-character compression
tag and stores width/|height| into `actual_config_`; a format type GUID
matching neither branch falls through to the final `return S_OK` without
touching `actual_config_`. Returns the HRESULT and the new value of
`actual_config_`. -/
def CheckMediaType (actual : VideoConfig) (mt : VideoProposal) :
    HResult × VideoConfig :=
  match mt.majortype with
  | none => (.VFW_E_TYPE_NOT_ACCEPTED, actual)
  | some t =>
    if t ≠ Guid.MEDIATYPE_Video then (.VFW_E_TYPE_NOT_ACCEPTED, actual)
    else
      match mt.subtype, mt.formattype with
      | none, _ => (.E_INVALIDARG, actual)
      | some _, none => (.E_INVALIDARG, actual)
      | some subtype_guid, some format_guid =>
        if format_guid = Guid.FORMAT_VideoInfo then
          match mt.formatBlock with
          | none => (.VFW_E_TYPE_NOT_ACCEPTED, actual)
          | some bih =>
            if subtype_guid ≠ Guid.MEDIASUBTYPE_I420 ∨
               bih.biCompression ≠ kI420FourCc then
              (.VFW_E_TYPE_NOT_ACCEPTED, actual)
            else
              (.S_OK, { width := bih.biWidth, height := |bih.biHeight| })
        else if format_guid = Guid.FORMAT_VideoInfo2 then
          match mt.formatBlock with
          | none => (.VFW_E_TYPE_NOT_ACCEPTED, actual)
          | some bih =>
            if subtype_guid ≠ Guid.MEDIASUBTYPE_I420 ∨
               bih.biCompression ≠ kI420FourCc then
              (.VFW_E_TYPE_NOT_ACCEPTED, actual)
            else
              (.S_OK, { width := bih.biWidth, height := |bih.biHeight| })
        else
          (.S_OK, actual)

/-- The configuration state owned by `VideoSinkPin`. -/
structure State where
  requested_config : VideoConfig
  actual_config : VideoConfig
  deriving DecidableEq

/-- Method `VideoSinkPin::config`: copies `actual_config_` into `*ptr_config`
when the pointer is non-null. Returns the HRESULT, the value written
through the pointer (if any), and the (unchanged) pin state. -/
def config (st : State) (ptrNull : Bool) :
    HResult × Option VideoConfig × State :=
  if ptrNull then (.E_POINTER, none, st)
  else (.S_OK, some st.actual_config, st)

/-- Method `VideoSinkPin::set_config`: stores the new requested configuration and
resets `actual_config_` to a default-constructed capture configuration. -/
def set_config (st : State) (cfg : VideoConfig) : HResult × State :=
  (.S_OK,
    { st with requested_config := cfg,
              actual_config := VideoCaptureConfigDefault })

end VideoSinkPin

/-- An `IMediaSample` as read by `VideoSinkFilter::OnFrameReceived`: the
result of `GetPointer` with the nullness of the returned buffer pointer,
the value of `GetActualDataLength`, and the result of `GetMediaTime` with
the start time it reports. -/
structure VideoSample where
  getPointerHr : HResult
  bufferPtrNull : Bool
  actualDataLength : Int
  getMediaTimeHr : HResult
  startTime : Int
  deriving DecidableEq

/-- The video frame produced by a successful ingest: the width/height read
from `actual_config_`, the raw start time, and the payload length handed
to `frame_.InitI420`. -/
structure VideoFrameRec where
  width : Int
  height : Int
  startTime : Int
  length : Int
  deriving DecidableEq

/-- Outcome of `VideoSinkFilter::OnFrameReceived`, one constructor per
exit path: the empty-payload early return (carrying the HRESULT it
computes), the failed `GetMediaTime` return, the failed `frame_.InitI420`
return, and the success path. Unlike audio, the empty-payload check tests
only the pointer, never the data length, and no downstream callback is
invoked anywhere in the function. -/
inductive VideoIngestResult where
  | emptyPayload (hr : HResult)
  | timeQueryFailed (hr : HResult)
  | frameInitFailed
  | delivered (frame : VideoFrameRec)
  deriving DecidableEq

/-- The HRESULT that `VideoSinkFilter::OnFrameReceived` returns on each
outcome. -/
def VideoIngestResult.toHr : VideoIngestResult → HResult
  | .emptyPayload hr => hr
  | .timeQueryFailed hr => hr
  | .frameInitFailed => .E_FAIL
  | .delivered _ => .S_OK

/-- Whether the outcome is the empty-payload early return. -/
def VideoIngestResult.isEmptyPayload : VideoIngestResult → Bool
  | .emptyPayload _ => true
  | _ => false

/-- Whether the audio outcome is the empty-payload early return. -/
def AudioIngestResult.isEmptyPayload : AudioIngestResult → Bool
  | .emptyPayload _ => true
  | _ => false

namespace VideoSinkFilter

/-- Method `VideoSinkFilter::OnFrameReceived`: per-frame video ingest.
`initStatus` is the status returned by `frame_.InitI420` (modelled from
the spec: the copy/allocation of the frame buffer, outside these sources,
which fails with a nonzero status). -/
def OnFrameReceived (cfg : VideoConfig) (s : VideoSample)
    (initStatus : Int) : VideoIngestResult :=
  if s.getPointerHr.failed ∨ s.bufferPtrNull then
    .emptyPayload (if s.getPointerHr = .S_OK then .E_FAIL else s.getPointerHr)
  else if s.getMediaTimeHr.failed then
    .timeQueryFailed s.getMediaTimeHr
  else if initStatus ≠ 0 then .frameInitFailed
  else .delivered ⟨cfg.width, cfg.height, s.startTime, s.actualDataLength⟩

/-- Method `VideoSinkFilter::set_config`: rejects with `VFW_E_NOT_STOPPED` unless
the filter run state is `State_Stopped`, otherwise forwards to
`VideoSinkPin::set_config`. Returns the HRESULT and the pin state. -/
def set_config (m_State : FilterState) (st : VideoSinkPin.State)
    (cfg : VideoConfig) : HResult × VideoSinkPin.State :=
  if m_State ≠ .State_Stopped then (.VFW_E_NOT_STOPPED, st)
  else VideoSinkPin.set_config st cfg

end VideoSinkFilter

/-- Method `VideoSinkPin::Receive`: runs `CBaseInputPin::Receive` (result given
as `baseHr`) and, when it succeeded, returns the HRESULT of
`OnFrameReceived` — unlike the audio pin, ingest failures propagate to the
upstream caller. The second component records the ingest outcome when
ingest ran. -/
def VideoSinkPin.Receive (baseHr : HResult) (cfg : VideoConfig)
    (s : VideoSample) (initStatus : Int) :
    HResult × Option VideoIngestResult :=
  if baseHr.failed then (baseHr, none)
  else
    let r := VideoSinkFilter.OnFrameReceived cfg s initStatus
    (r.toHr, some r)

/-- One delivery step of the audio filter, threading the only mutable
ingest state (`sample_buffer_`, overwritten on each successful copy):
returns the HRESULT of `AudioSinkPin::Receive` and the buffer slot after
the step. -/
def audioDeliveryStep (buf : Option AudioBufferRec) (baseHr : HResult)
    (cfg : AudioConfig) (s : MediaSample) (initStatus : Int)
    (callbackStatus : Int) : HResult × Option AudioBufferRec :=
  match AudioSinkPin.Receive baseHr cfg s initStatus callbackStatus with
  | (hr, some (.delivered b _)) => (hr, some b)
  | (hr, _) => (hr, buf)

/-- A video proposal whose format type GUID is neither `FORMAT_VideoInfo`
nor `FORMAT_VideoInfo2`. -/
def fallthroughVideoProposal : VideoProposal :=
  { majortype := some .MEDIATYPE_Video
    subtype := some (.other 3)
    formattype := some (.other 7)
    formatBlock := none }

/-- An audio sample whose buffer pointer is null. -/
def nullPtrAudioSample : MediaSample :=
  { getPointerHr := .S_OK
    bufferPtrNull := true
    actualDataLength := 100
    getTimeHr := .S_OK
    startTime := 0
    endTime := 0 }

/-- A video sample with a non-null buffer pointer but zero data length. -/
def zeroLenVideoSample : VideoSample :=
  { getPointerHr := .S_OK
    bufferPtrNull := false
    actualDataLength := 0
    getMediaTimeHr := .S_OK
    startTime := 0 }

/-- An accepted extensible audio proposal (tag `WAVE_FORMAT_EXTENSIBLE`,
valid bits 24, channel mask 3). -/
def extensibleAudioProposal : AudioProposal :=
  { majortype := some .MEDIATYPE_Audio
    subtype := some .MEDIASUBTYPE_PCM
    formattype := some .FORMAT_WaveFormatEx
    temporalCompression := false
    parsed := some ⟨WAVE_FORMAT_EXTENSIBLE, 2, 44100, 176400, 4, 16, 24, 3⟩ }

/-- An accepted plain-PCM audio proposal (tag `WAVE_FORMAT_PCM`). -/
def pcmAudioProposal : AudioProposal :=
  { majortype := some .MEDIATYPE_Audio
    subtype := some .MEDIASUBTYPE_PCM
    formattype := some .FORMAT_WaveFormatEx
    temporalCompression := false
    parsed := some ⟨WAVE_FORMAT_PCM, 2, 44100, 176400, 4, 16, 0, 0⟩ }

/-- An audio proposal whose subtype GUID matches neither supported audio
sub-kind, with every other field well-formed. -/
def badSubtypeProposal : AudioProposal :=
  { majortype := some .MEDIATYPE_Audio
    subtype := some (.other 0)
    formattype := some .FORMAT_WaveFormatEx
    temporalCompression := false
    parsed := some ⟨WAVE_FORMAT_PCM, 2, 44100, 176400, 4, 16, 0, 0⟩ }

/-- A video sample whose buffer pointer is null. -/
def nullPtrVideoSample : VideoSample :=
  { getPointerHr := .S_OK
    bufferPtrNull := true
    actualDataLength := 100
    getMediaTimeHr := .S_OK
    startTime := 0 }

/-- Truncating (C-style) integer division by a positive constant is
monotone. -/
lemma tdiv_le_tdiv_of_le {a b d : Int} (hd : 0 < d) (h : a ≤ b) :
    a.tdiv d ≤ b.tdiv d := by
  rcases le_or_lt 0 a with ha | ha
  · have hb : 0 ≤ b := le_trans ha h
    rw [Int.tdiv_eq_ediv ha (le_of_lt hd), Int.tdiv_eq_ediv hb (le_of_lt hd)]
    exact Int.ediv_le_ediv hd h
  · rcases le_or_lt 0 b with hb | hb
    · have h1 : (0:Int) ≤ (-a).tdiv d :=
        Int.tdiv_nonneg (by omega) (le_of_lt hd)
      have h2 : (0:Int) ≤ b.tdiv d := Int.tdiv_nonneg hb (le_of_lt hd)
      have e1 : (-a).tdiv d = -(a.tdiv d) := Int.neg_tdiv a d
      omega
    · have h1 : (0:Int) ≤ -b := by omega
      have h2 : (0:Int) ≤ -a := by omega
      have h3 : (-b) ≤ (-a) := by omega
      have h4 : (-b) / d ≤ (-a) / d := Int.ediv_le_ediv hd h3
      rw [← Int.tdiv_eq_ediv h1 (le_of_lt hd),
          ← Int.tdiv_eq_ediv h2 (le_of_lt hd)] at h4
      have e1 : (-a).tdiv d = -(a.tdiv d) := Int.neg_tdiv a d
      have e2 : (-b).tdiv d = -(b.tdiv d) := Int.neg_tdiv b d
      omega

/-- Every run of the audio negotiation either succeeds or leaves
`actual_config_` exactly as it was. -/
lemma audio_check_cases (actual : AudioConfig) (mt : AudioProposal) :
    (AudioSinkPin.CheckMediaType actual mt).1 = .S_OK ∨
    (AudioSinkPin.CheckMediaType actual mt).2 = actual := by
  rcases mt with ⟨_ | g, _ | sg, _ | fg, tc, _ | f⟩ <;>
    · unfold AudioSinkPin.CheckMediaType
      dsimp only
      repeat' split
      all_goals first
        | (left; rfl)
        | (right; rfl)

/-- Every run of the video negotiation either succeeds or leaves
`actual_config_` exactly as it was. -/
lemma video_check_cases (actual : VideoConfig) (mt : VideoProposal) :
    (VideoSinkPin.CheckMediaType actual mt).1 = .S_OK ∨
    (VideoSinkPin.CheckMediaType actual mt).2 = actual := by
  rcases mt with ⟨_ | g, _ | sg, _ | fg, _ | bih⟩ <;>
    · unfold VideoSinkPin.CheckMediaType
      dsimp only
      repeat' split
      all_goals first
        | (left; rfl)
        | (right; rfl)

/-- An audio proposal whose subtype matches neither supported sub-kind is
always rejected with a failing HRESULT. -/
lemma audio_check_reject_subtype (actual : AudioConfig) (mt : AudioProposal)
    (sg : Guid) (hst : mt.subtype = some sg) (hmem : sg ∉ kInputSubTypes) :
    (AudioSinkPin.CheckMediaType actual mt).1.failed = true := by
  rcases mt with ⟨_ | g, stp, _ | fg, tc, _ | f⟩ <;>
    · dsimp only at hst
      subst hst
      unfold AudioSinkPin.CheckMediaType
      dsimp only
      repeat' split
      any_goals rfl
      all_goals simp_all

/-- Claim C1: an audio proposal whose sub-kind matches neither supported
sub-kind (IEEE-float, PCM) is rejected with a failing status
(FormatRejected) and leaves the actual configuration unchanged; more
generally, every audio or video negotiation call that does not return
`S_OK` leaves the actual configuration exactly as it was. -/
theorem claim_C1 (actual : AudioConfig) (mt : AudioProposal)
    (vactual : VideoConfig) (vmt : VideoProposal) :
    (∀ sg, mt.subtype = some sg → sg ∉ kInputSubTypes →
      (AudioSinkPin.CheckMediaType actual mt).1.failed = true ∧
      (AudioSinkPin.CheckMediaType actual mt).2 = actual) ∧
    ((AudioSinkPin.CheckMediaType actual mt).1 ≠ .S_OK →
      (AudioSinkPin.CheckMediaType actual mt).2 = actual) ∧
    ((VideoSinkPin.CheckMediaType vactual vmt).1 ≠ .S_OK →
      (VideoSinkPin.CheckMediaType vactual vmt).2 = vactual) := by
  refine ⟨?_, ?_, ?_⟩
  · intro sg hst hmem
    have hf := audio_check_reject_subtype actual mt sg hst hmem
    refine ⟨hf, ?_⟩
    rcases audio_check_cases actual mt with h | h
    · rw [h] at hf
      exact absurd hf (by decide)
    · exact h
  · intro h
    rcases audio_check_cases actual mt with h' | h'
    · exact absurd h' h
    · exact h'
  · intro h
    rcases video_check_cases vactual vmt with h' | h'
    · exact absurd h' h
    · exact h'

/-- Witness for claim C1: a concrete audio proposal with an unsupported
subtype GUID, proposed against the empty actual configuration. -/
theorem claim_C1_witness :
    (AudioSinkPin.CheckMediaType AudioConfig.empty
      badSubtypeProposal).1.failed = true ∧
    (AudioSinkPin.CheckMediaType AudioConfig.empty badSubtypeProposal).2 =
      AudioConfig.empty :=
  (claim_C1 AudioConfig.empty badSubtypeProposal ⟨0, 0⟩
    fallthroughVideoProposal).1 (.other 0) rfl (by decide)

/-- Counterexample to claim C2: a video proposal with major kind video and
a present sub-kind whose layout-kind GUID is neither `FORMAT_VideoInfo`
nor `FORMAT_VideoInfo2` is accepted with `S_OK` (the code falls through to
the final `return S_OK`), where the claim requires rejection. -/
theorem claim_C2_cex :
    fallthroughVideoProposal.formattype ≠ some Guid.FORMAT_VideoInfo ∧
    fallthroughVideoProposal.formattype ≠ some Guid.FORMAT_VideoInfo2 ∧
    VideoSinkPin.CheckMediaType ⟨0, 0⟩ fallthroughVideoProposal =
      (.S_OK, ⟨0, 0⟩) := by decide

/-- Claim C2 (amended): for a proposal carrying one of the two supported
video-info layout-kinds, video negotiation accepts exactly when the major
kind is video, the sub-kind is I420, and the format block is present with
the embedded four-character compression tag equal to `I420`; a proposal
with major kind video, a present sub-kind, and any other layout-kind is
accepted as well, without touching the actual configuration. -/
theorem claim_C2 (actual : VideoConfig) (mt : VideoProposal) :
    ((mt.formattype = some Guid.FORMAT_VideoInfo ∨
      mt.formattype = some Guid.FORMAT_VideoInfo2) →
      ((VideoSinkPin.CheckMediaType actual mt).1 = .S_OK ↔
        (mt.majortype = some Guid.MEDIATYPE_Video ∧
         mt.subtype = some Guid.MEDIASUBTYPE_I420 ∧
         ∃ bih, mt.formatBlock = some bih ∧
           bih.biCompression = kI420FourCc))) ∧
    (∀ sg fg, mt.majortype = some Guid.MEDIATYPE_Video →
      mt.subtype = some sg → mt.formattype = some fg →
      fg ≠ Guid.FORMAT_VideoInfo → fg ≠ Guid.FORMAT_VideoInfo2 →
      VideoSinkPin.CheckMediaType actual mt = (.S_OK, actual)) := by
  constructor
  · intro hft
    rcases mt with ⟨_ | g, _ | sg, _ | fg, _ | bih⟩ <;>
      dsimp only at hft ⊢ <;>
      rcases hft with hft | hft <;>
      first
        | (injection hft with hfg
           subst hfg
           simp only [VideoSinkPin.CheckMediaType]
           first
             | (split_ifs <;> simp_all <;> tauto)
             | (simp_all <;> tauto))
        | injection hft
  · intro sg fg hmj hst hft h1 h2
    rcases mt with ⟨mj, stp, ftp, fb⟩
    dsimp only at hmj hst hft
    subst hmj; subst hst; subst hft
    simp only [VideoSinkPin.CheckMediaType]
    split_ifs <;> simp_all

/-- Witness for claim C2: a well-formed I420 `FORMAT_VideoInfo` proposal
is accepted, and the fall-through proposal is accepted unchanged. -/
theorem claim_C2_witness :
    (VideoSinkPin.CheckMediaType ⟨0, 0⟩
      ⟨some .MEDIATYPE_Video, some .MEDIASUBTYPE_I420, some .FORMAT_VideoInfo,
        some ⟨640, 480, kI420FourCc⟩⟩).1 = .S_OK ∧
    VideoSinkPin.CheckMediaType ⟨0, 0⟩ fallthroughVideoProposal =
      (.S_OK, ⟨0, 0⟩) :=
  ⟨((claim_C2 ⟨0, 0⟩
      ⟨some .MEDIATYPE_Video, some .MEDIASUBTYPE_I420, some .FORMAT_VideoInfo,
        some ⟨640, 480, kI420FourCc⟩⟩).1 (Or.inl rfl)).mpr
      ⟨rfl, rfl, ⟨640, 480, kI420FourCc⟩, rfl, rfl⟩,
   (claim_C2 ⟨0, 0⟩ fallthroughVideoProposal).2 (.other 3) (.other 7) rfl rfl
      rfl (by decide) (by decide)⟩

/-- Counterexample to claim C3: an audio sample whose ingest fails with
the empty-payload error, yet `AudioSinkPin::Receive` returns `S_OK` to the
upstream caller instead of that error. -/
theorem claim_C3_cex :
    AudioSinkFilter.OnSamplesReceived AudioConfig.empty nullPtrAudioSample 0 0 =
      .emptyPayload .E_FAIL ∧
    (AudioSinkPin.Receive .S_OK AudioConfig.empty nullPtrAudioSample 0 0).1 =
      .S_OK := by decide

/-- Claim C3 (amended): a payload or timing ingest error is returned
synchronously by the ingest operation; the video pin's `Receive`
propagates that HRESULT to the upstream caller, while the audio pin's
`Receive` only logs it and returns `S_OK`; in both pins the failure does
not affect subsequent samples — the result of a delivery step does not
depend on the buffer slot left behind by earlier deliveries. -/
theorem claim_C3 (cfg : AudioConfig) (s : MediaSample) (i c : Int)
    (vcfg : VideoConfig) (vs : VideoSample) (vi : Int)
    (b b' : Option AudioBufferRec) (bh : HResult) :
    VideoSinkPin.Receive .S_OK vcfg vs vi =
      ((VideoSinkFilter.OnFrameReceived vcfg vs vi).toHr,
        some (VideoSinkFilter.OnFrameReceived vcfg vs vi)) ∧
    (AudioSinkPin.Receive .S_OK cfg s i c).1 = .S_OK ∧
    (audioDeliveryStep b bh cfg s i c).1 =
      (audioDeliveryStep b' bh cfg s i c).1 := by
  refine ⟨rfl, rfl, ?_⟩
  unfold audioDeliveryStep
  rcases h : AudioSinkPin.Receive bh cfg s i c with ⟨h1, h2⟩
  rcases h2 with _ | r
  · rfl
  · rcases r <;> rfl

/-- Counterexample to claim C4: a video sample with a non-null buffer
pointer and data length 0 is not rejected by the empty-payload check,
whichever way the frame initialization goes — where the claim requires an
EmptyPayload failure for every sample of length ≤ 0. -/
theorem claim_C4_cex :
    (VideoSinkFilter.OnFrameReceived ⟨640, 480⟩ zeroLenVideoSample
      0).isEmptyPayload = false ∧
    (VideoSinkFilter.OnFrameReceived ⟨640, 480⟩ zeroLenVideoSample
      1).isEmptyPayload = false := by decide

/-- Claim C4 (amended): audio ingest fails with the empty-payload error
and does not invoke the callback whenever the byte pointer is null or the
length is ≤ 0; video ingest fails with the empty-payload error on a null
byte pointer, but a non-positive length alone is never rejected by the
empty-payload check (it flows to frame initialization instead; the video
ingest path invokes no callback at all). -/
theorem claim_C4 (cfg : AudioConfig) (s : MediaSample) (i c : Int)
    (vcfg : VideoConfig) (vs : VideoSample) (vi : Int) :
    (s.bufferPtrNull = true ∨ s.actualDataLength ≤ 0 →
      (AudioSinkFilter.OnSamplesReceived cfg s i c).isEmptyPayload = true ∧
      (AudioSinkFilter.OnSamplesReceived cfg s i c).callbackInvoked = false) ∧
    (vs.bufferPtrNull = true →
      (VideoSinkFilter.OnFrameReceived vcfg vs vi).isEmptyPayload = true) ∧
    (vs.bufferPtrNull = false → vs.getPointerHr.failed = false →
      (VideoSinkFilter.OnFrameReceived vcfg vs vi).isEmptyPayload = false) := by
  refine ⟨?_, ?_, ?_⟩
  · intro h
    have hc : (s.getPointerHr.failed = true ∨ s.bufferPtrNull = true ∨
        s.actualDataLength ≤ 0) := by
      rcases h with h | h
      · exact Or.inr (Or.inl h)
      · exact Or.inr (Or.inr h)
    unfold AudioSinkFilter.OnSamplesReceived
    rw [if_pos hc]
    exact ⟨rfl, rfl⟩
  · intro h
    have hc : (vs.getPointerHr.failed = true ∨ vs.bufferPtrNull = true) :=
      Or.inr h
    unfold VideoSinkFilter.OnFrameReceived
    rw [if_pos hc]
    rfl
  · intro h1 h2
    have hc : ¬ (vs.getPointerHr.failed = true ∨ vs.bufferPtrNull = true) := by
      simp [h1, h2]
    unfold VideoSinkFilter.OnFrameReceived
    rw [if_neg hc]
    split_ifs <;> rfl

/-- Witness for claim C4: concrete null-pointer audio and video samples
take the empty-payload path without invoking the callback, and the
zero-length video sample does not. -/
theorem claim_C4_witness :
    (AudioSinkFilter.OnSamplesReceived AudioConfig.empty nullPtrAudioSample
      0 0).isEmptyPayload = true ∧
    (AudioSinkFilter.OnSamplesReceived AudioConfig.empty nullPtrAudioSample
      0 0).callbackInvoked = false ∧
    (VideoSinkFilter.OnFrameReceived ⟨640, 480⟩ nullPtrVideoSample
      0).isEmptyPayload = true ∧
    (VideoSinkFilter.OnFrameReceived ⟨640, 480⟩ zeroLenVideoSample
      0).isEmptyPayload = false :=
  ⟨((claim_C4 AudioConfig.empty nullPtrAudioSample 0 0 ⟨640, 480⟩
      nullPtrVideoSample 0).1 (Or.inl rfl)).1,
   ((claim_C4 AudioConfig.empty nullPtrAudioSample 0 0 ⟨640, 480⟩
      nullPtrVideoSample 0).1 (Or.inl rfl)).2,
   (claim_C4 AudioConfig.empty nullPtrAudioSample 0 0 ⟨640, 480⟩
      nullPtrVideoSample 0).2.1 rfl,
   (claim_C4 AudioConfig.empty nullPtrAudioSample 0 0 ⟨640, 480⟩
      zeroLenVideoSample 0).2.2 rfl rfl⟩

/-- Counterexample to claim C5: accept an extensible proposal (valid bits
24, channel mask 3), then accept a plain-PCM proposal; the resulting
actual configuration still carries 24 and 3 in the extensible-only fields,
where the claim requires default/zero values. -/
theorem claim_C5_cex :
    (AudioSinkPin.CheckMediaType AudioConfig.empty extensibleAudioProposal).1 =
      .S_OK ∧
    (AudioSinkPin.CheckMediaType
      (AudioSinkPin.CheckMediaType AudioConfig.empty extensibleAudioProposal).2
      pcmAudioProposal).1 = .S_OK ∧
    (AudioSinkPin.CheckMediaType
      (AudioSinkPin.CheckMediaType AudioConfig.empty extensibleAudioProposal).2
      pcmAudioProposal).2.valid_bits_per_sample = 24 ∧
    (AudioSinkPin.CheckMediaType
      (AudioSinkPin.CheckMediaType AudioConfig.empty extensibleAudioProposal).2
      pcmAudioProposal).2.channel_mask = 3 := by decide

/-- Claim C5 (amended): on an accepted audio proposal whose parsed format
tag is extensible, the resulting actual configuration carries the parsed
record's valid-bits-per-sample and channel mask; on an accepted proposal
with a non-extensible tag those two fields are left unchanged from their
values before the call (hence zero when negotiation starts from the empty
configuration). -/
theorem claim_C5 (actual : AudioConfig) (mt : AudioProposal)
    (f : AudioFormatRec) (hp : mt.parsed = some f)
    (hok : (AudioSinkPin.CheckMediaType actual mt).1 = .S_OK) :
    (f.format_tag = WAVE_FORMAT_EXTENSIBLE →
      (AudioSinkPin.CheckMediaType actual mt).2.valid_bits_per_sample =
        f.valid_bits_per_sample ∧
      (AudioSinkPin.CheckMediaType actual mt).2.channel_mask =
        f.channel_mask) ∧
    (f.format_tag ≠ WAVE_FORMAT_EXTENSIBLE →
      (AudioSinkPin.CheckMediaType actual mt).2.valid_bits_per_sample =
        actual.valid_bits_per_sample ∧
      (AudioSinkPin.CheckMediaType actual mt).2.channel_mask =
        actual.channel_mask) := by
  rcases mt with ⟨_ | g, _ | sg, _ | fg, tc, p⟩ <;>
    dsimp only at hp <;> subst hp <;>
    simp only [AudioSinkPin.CheckMediaType] at hok ⊢ <;>
    first
      | (split_ifs at hok ⊢ <;> simp_all)
      | simp_all

/-- Witness for claim C5: the concrete extensible proposal accepted from
the empty configuration yields valid bits 24 and channel mask 3. -/
theorem claim_C5_witness :
    (AudioSinkPin.CheckMediaType AudioConfig.empty
      extensibleAudioProposal).2.valid_bits_per_sample = 24 ∧
    (AudioSinkPin.CheckMediaType AudioConfig.empty
      extensibleAudioProposal).2.channel_mask = 3 :=
  (claim_C5 AudioConfig.empty extensibleAudioProposal
    ⟨WAVE_FORMAT_EXTENSIBLE, 2, 44100, 176400, 4, 16, 24, 3⟩ rfl
    (by decide)).1 rfl

/-- Claim C6: the audio format enumeration. Indices 0 and 1 return the two
supported sub-kinds (IEEE-float, then PCM); index 3 signals end-of-list;
but index 2 — equal to `kNumInputSubTypes` — is still accepted: the code
returns `S_OK` having read `kInputSubTypes[2]`, one past the end of the
two-element array (the claim says every index ≥ 2 signals end-of-list). -/
theorem claim_C6 :
    AudioSinkPin.GetMediaType 0 false =
      (.S_OK, some ⟨.MEDIATYPE_Audio, .FORMAT_WaveFormatEx,
        some .MEDIASUBTYPE_IEEE_FLOAT⟩) ∧
    AudioSinkPin.GetMediaType 1 false =
      (.S_OK, some ⟨.MEDIATYPE_Audio, .FORMAT_WaveFormatEx,
        some .MEDIASUBTYPE_PCM⟩) ∧
    AudioSinkPin.GetMediaType 2 false =
      (.S_OK, some ⟨.MEDIATYPE_Audio, .FORMAT_WaveFormatEx, none⟩) ∧
    AudioSinkPin.GetMediaType 3 false = (.VFW_S_NO_MORE_ITEMS, none) := by
  decide

/-- Claim C7: on every delivered audio sample whose payload and time
queries succeed and whose buffer copy succeeds (`initStatus = 0`), the
ingest returns `S_OK` and the pin's `Receive` reports `S_OK` upstream for
every callback status, including nonzero ones. -/
theorem claim_C7 (cfg : AudioConfig) (s : MediaSample) (callbackStatus : Int)
    (hptr : s.getPointerHr.failed = false) (hnull : s.bufferPtrNull = false)
    (hlen : 0 < s.actualDataLength) (htime : s.getTimeHr.failed = false) :
    (AudioSinkFilter.OnSamplesReceived cfg s 0 callbackStatus).toHr =
      .S_OK ∧
    (AudioSinkFilter.OnSamplesReceived cfg s 0
      callbackStatus).callbackInvoked = true ∧
    (AudioSinkPin.Receive .S_OK cfg s 0 callbackStatus).1 = .S_OK := by
  have hlen' : ¬ s.actualDataLength ≤ 0 := by omega
  refine ⟨?_, ?_, rfl⟩ <;>
    simp [AudioSinkFilter.OnSamplesReceived, hptr, hnull, hlen', htime,
      AudioIngestResult.toHr, AudioIngestResult.callbackInvoked]

/-- Witness for claim C7: a concrete 100-byte sample with valid times,
successful copy, and a failing callback status of 5. -/
theorem claim_C7_witness :
    (AudioSinkFilter.OnSamplesReceived AudioConfig.empty
      ⟨.S_OK, false, 100, .S_OK, 10000, 20000⟩ 0 5).toHr = .S_OK ∧
    (AudioSinkFilter.OnSamplesReceived AudioConfig.empty
      ⟨.S_OK, false, 100, .S_OK, 10000, 20000⟩ 0 5).callbackInvoked = true ∧
    (AudioSinkPin.Receive .S_OK AudioConfig.empty
      ⟨.S_OK, false, 100, .S_OK, 10000, 20000⟩ 0 5).1 = .S_OK :=
  claim_C7 AudioConfig.empty ⟨.S_OK, false, 100, .S_OK, 10000, 20000⟩ 5
    (by decide) (by decide) (by decide) (by decide)

/-- Claim C8: `set_config` on either filter fails with `VFW_E_NOT_STOPPED`
in the Running and Paused (transitioning) run states and leaves the pin
state (both configurations) unchanged; in the Stopped state it succeeds,
replaces the requested configuration with the supplied value, and resets
the actual configuration to the empty/default one, whatever it was. -/
theorem claim_C8 (ast : AudioSinkPin.State) (acfg : AudioConfig)
    (vst : VideoSinkPin.State) (vcfg : VideoConfig) :
    AudioSinkFilter.set_config .State_Running ast acfg =
      (.VFW_E_NOT_STOPPED, ast) ∧
    AudioSinkFilter.set_config .State_Paused ast acfg =
      (.VFW_E_NOT_STOPPED, ast) ∧
    AudioSinkFilter.set_config .State_Stopped ast acfg =
      (.S_OK, ⟨acfg, AudioConfig.empty⟩) ∧
    VideoSinkFilter.set_config .State_Running vst vcfg =
      (.VFW_E_NOT_STOPPED, vst) ∧
    VideoSinkFilter.set_config .State_Paused vst vcfg =
      (.VFW_E_NOT_STOPPED, vst) ∧
    VideoSinkFilter.set_config .State_Stopped vst vcfg =
      (.S_OK, ⟨vcfg, VideoCaptureConfigDefault⟩) :=
  ⟨rfl, rfl, rfl, rfl, rfl, rfl⟩

/-- Claim C9: the device-tick → millisecond conversion used by sample
ingest is monotone: start times in the same time base convert to
non-decreasing millisecond values. -/
theorem claim_C9 (t1 t2 : Int) (h : t1 < t2) :
    media_time_to_milliseconds t1 ≤ media_time_to_milliseconds t2 :=
  tdiv_le_tdiv_of_le (by decide) (le_of_lt h)

/-- Witness for claim C9: two concrete start times 9999 < 20001. -/
theorem claim_C9_witness :
    (9999 : Int) < 20001 ∧
    media_time_to_milliseconds 9999 ≤ media_time_to_milliseconds 20001 :=
  ⟨by decide, claim_C9 9999 20001 (by decide)⟩

/-- Claim C10: the configuration getter of either pin returns `E_POINTER`
on a null output pointer and writes nothing, returns `S_OK` and a copy of
the actual configuration otherwise, and leaves the pin state (requested
and actual configuration) unchanged in every case. -/
theorem claim_C10 (ast : AudioSinkPin.State) (vst : VideoSinkPin.State) :
    AudioSinkPin.config ast true = (.E_POINTER, none, ast) ∧
    AudioSinkPin.config ast false = (.S_OK, some ast.actual_config, ast) ∧
    VideoSinkPin.config vst true = (.E_POINTER, none, vst) ∧
    VideoSinkPin.config vst false = (.S_OK, some vst.actual_config, vst) :=
  ⟨rfl, rfl, rfl, rfl⟩

end Webmlive
